import Mathlib

/-!
Shallow embedding of the Z80 register-and-flag emulator core
(src/cuda/z80_common.h) and proofs of the specified properties.

Machine integers are modelled as Nat (with explicit wrapping `% 256` /
`% 65536` at the points where the C code truncates to uint8_t / uint16_t,
and via Int for the subtractions that wrap).  Arrays are Lean lists
accessed with getD; the global flag tables built by init_tables are
modelled as the functions the building loop computes.
-/

-- ============================================================
-- Z80 flag bits
-- ============================================================

def FLAG_C : Nat := 0x01
def FLAG_N : Nat := 0x02
def FLAG_P : Nat := 0x04
def FLAG_V : Nat := 0x04
def FLAG_3 : Nat := 0x08
def FLAG_H : Nat := 0x10
def FLAG_5 : Nat := 0x20
def FLAG_Z : Nat := 0x40
def FLAG_S : Nat := 0x80

-- ============================================================
-- Z80 state: 8 byte registers r[0..7] (A,F,B,C,D,E,H,L) plus 16-bit sp
-- ============================================================

structure Z80State where
  a : Nat
  f : Nat
  b : Nat
  c : Nat
  d : Nat
  e : Nat
  hr : Nat
  lr : Nat
  sp : Nat
deriving DecidableEq

/-- Read of the C array r[i] (A=0, F=1, B=2, C=3, D=4, E=5, H=6, L=7). -/
def regGet (s : Z80State) (i : Nat) : Nat :=
  match i with
  | 0 => s.a
  | 1 => s.f
  | 2 => s.b
  | 3 => s.c
  | 4 => s.d
  | 5 => s.e
  | 6 => s.hr
  | 7 => s.lr
  | _ => 0

/-- Write of the C array r[i]. -/
def regSet (s : Z80State) (i v : Nat) : Z80State :=
  match i with
  | 0 => Z80State.mk v s.f s.b s.c s.d s.e s.hr s.lr s.sp
  | 1 => Z80State.mk s.a v s.b s.c s.d s.e s.hr s.lr s.sp
  | 2 => Z80State.mk s.a s.f v s.c s.d s.e s.hr s.lr s.sp
  | 3 => Z80State.mk s.a s.f s.b v s.d s.e s.hr s.lr s.sp
  | 4 => Z80State.mk s.a s.f s.b s.c v s.e s.hr s.lr s.sp
  | 5 => Z80State.mk s.a s.f s.b s.c s.d v s.hr s.lr s.sp
  | 6 => Z80State.mk s.a s.f s.b s.c s.d s.e v s.lr s.sp
  | 7 => Z80State.mk s.a s.f s.b s.c s.d s.e s.hr v s.sp
  | _ => s

/-- Well-formed state: every byte register is a byte, sp is 16-bit. -/
def WF (s : Z80State) : Prop :=
  s.a < 256 ∧ s.f < 256 ∧ s.b < 256 ∧ s.c < 256 ∧ s.d < 256 ∧ s.e < 256 ∧
    s.hr < 256 ∧ s.lr < 256 ∧ s.sp < 65536

instance (s : Z80State) : Decidable (WF s) := by unfold WF; infer_instance

-- ============================================================
-- Opcode range constants
-- ============================================================

def OP_RLCA : Nat := 134
def OP_RRCA : Nat := 135
def OP_RLA : Nat := 136
def OP_RRA : Nat := 137
def OP_DAA : Nat := 138
def OP_CPL : Nat := 139
def OP_SCF : Nat := 140
def OP_CCF : Nat := 141
def OP_NEG : Nat := 142
def OP_NOP : Nat := 143
def OP_CB_START : Nat := 144
def OP_SLL_A : Nat := 193
def OP_SLL_B_START : Nat := 194
def OP_BIT_START : Nat := 200
def OP_RES_START : Nat := 256
def OP_SET_START : Nat := 312
def OP_16INC_START : Nat := 368
def OP_ADD_HL_START : Nat := 376
def OP_EX_DE_HL : Nat := 380
def OP_LD_SP_HL : Nat := 381
def OP_LD_RR_NN_START : Nat := 382
def OP_ADC_HL_START : Nat := 386
def OP_SBC_HL_START : Nat := 390
def OP_COUNT : Nat := 394

-- ============================================================
-- Test vectors (the 8 fixed seed states)
-- ============================================================

def h_test_vectors : List Z80State :=
  [ Z80State.mk 0x00 0x00 0x00 0x00 0x00 0x00 0x00 0x00 0x0000,
    Z80State.mk 0xFF 0xFF 0xFF 0xFF 0xFF 0xFF 0xFF 0xFF 0xFFFF,
    Z80State.mk 0x01 0x00 0x02 0x03 0x04 0x05 0x06 0x07 0x1234,
    Z80State.mk 0x80 0x01 0x40 0x20 0x10 0x08 0x04 0x02 0x8000,
    Z80State.mk 0x55 0x00 0xAA 0x55 0xAA 0x55 0xAA 0x55 0x5555,
    Z80State.mk 0xAA 0x01 0x55 0xAA 0x55 0xAA 0x55 0xAA 0xAAAA,
    Z80State.mk 0x0F 0x00 0xF0 0x0F 0xF0 0x0F 0xF0 0x0F 0xFFFE,
    Z80State.mk 0x7F 0x01 0x80 0x7F 0x80 0x7F 0x80 0x7F 0x7FFF ]

-- ============================================================
-- Flag tables: init_tables builds sz53/parity/sz53p for i in [0,256)
-- and then sets the Z bit of entry 0; the halfcarry/overflow tables
-- are fixed 8-entry constant arrays.
-- ============================================================

/-- Parity accumulator loop: for k in [0,8) do p := p xor (j and 1); j := j >>> 1. -/
def h_parity (v : Nat) : Nat :=
  let pj := (List.range 8).foldl (fun pj _ => (pj.1 ^^^ (pj.2 &&& 1), pj.2 >>> 1)) (0, v)
  if pj.1 = 0 then FLAG_P else 0

/-- The built sz53 table: entry v is v masked to bits 3,5,7, with the
post-loop fixup sz53[0] set to include the zero flag. -/
def h_sz53 (v : Nat) : Nat :=
  if v = 0 then (v &&& (FLAG_3 ||| FLAG_5 ||| FLAG_S)) ||| FLAG_Z
  else v &&& (FLAG_3 ||| FLAG_5 ||| FLAG_S)

/-- The built sz53p table: entry v is sz53-loop-value or parity, with the
post-loop fixup sz53p[0] set to include the zero flag. -/
def h_sz53p (v : Nat) : Nat :=
  if v = 0 then ((v &&& (FLAG_3 ||| FLAG_5 ||| FLAG_S)) ||| h_parity v) ||| FLAG_Z
  else (v &&& (FLAG_3 ||| FLAG_5 ||| FLAG_S)) ||| h_parity v

def h_halfcarry_add : List Nat := [0, FLAG_H, FLAG_H, FLAG_H, 0, 0, 0, FLAG_H]
def h_halfcarry_sub : List Nat := [0, 0, FLAG_H, 0, FLAG_H, 0, FLAG_H, FLAG_H]
def h_overflow_add : List Nat := [0, 0, 0, FLAG_V, FLAG_V, 0, 0, 0]
def h_overflow_sub : List Nat := [0, FLAG_V, 0, 0, 0, 0, FLAG_V, 0]

-- ============================================================
-- Register mapping tables
-- ============================================================

def LD_FULL_SRC_H : List Nat :=
  [ 2, 3, 4, 5, 6, 7, 0,
    0, 2, 3, 4, 5, 6, 7,
    0, 2, 3, 4, 5, 6, 7,
    0, 2, 3, 4, 5, 6, 7,
    0, 2, 3, 4, 5, 6, 7,
    0, 2, 3, 4, 5, 6, 7,
    0, 2, 3, 4, 5, 6, 7 ]

def LD_DST_H : List Nat := [0, 2, 3, 4, 5, 6, 7]
def ALU_SRC_H : List Nat := [2, 3, 4, 5, 6, 7, 0]
def CB_REG_H : List Nat := [0, 2, 3, 4, 5, 6, 7]
def IMM_REG_H : List Nat := [0, 2, 3, 4, 5, 6, 7]
def INCDEC_REG_H : List Nat := [0, 2, 3, 4, 5, 6, 7]

-- ============================================================
-- ALU engine
-- ============================================================

def bsel_h (cond : Bool) (x y : Nat) : Nat := if cond then x else y

/-- uint16_t value of an int expression (wrapping two's complement). -/
def wrap16i (x : Int) : Nat := (x % 65536).toNat

/-- uint32_t value of an int expression (wrapping two's complement). -/
def wrap32i (x : Int) : Nat := (x % 4294967296).toNat

/-- The carry-trick lookup index shared by the 8-bit arithmetic ops. -/
def lookup8 (a v r : Nat) : Nat :=
  ((a &&& 0x88) >>> 3) ||| ((v &&& 0x88) >>> 2) ||| ((r &&& 0x88) >>> 1)

def h_alu_add (s : Z80State) (val : Nat) : Z80State :=
  let r := (s.a + val) % 65536
  let lookup := lookup8 s.a val r
  Z80State.mk (r % 256)
    (bsel_h (r &&& 0x100 != 0) FLAG_C 0 ||| h_halfcarry_add.getD (lookup &&& 0x07) 0 |||
      h_overflow_add.getD (lookup >>> 4) 0 ||| h_sz53 (r % 256))
    s.b s.c s.d s.e s.hr s.lr s.sp

def h_alu_adc (s : Z80State) (val : Nat) : Z80State :=
  let r := (s.a + val + (s.f &&& FLAG_C)) % 65536
  let lookup := lookup8 s.a val r
  Z80State.mk (r % 256)
    (bsel_h (r &&& 0x100 != 0) FLAG_C 0 ||| h_halfcarry_add.getD (lookup &&& 0x07) 0 |||
      h_overflow_add.getD (lookup >>> 4) 0 ||| h_sz53 (r % 256))
    s.b s.c s.d s.e s.hr s.lr s.sp

def h_alu_sub (s : Z80State) (val : Nat) : Z80State :=
  let r := wrap16i ((s.a : Int) - (val : Int))
  let lookup := lookup8 s.a val r
  Z80State.mk (r % 256)
    (bsel_h (r &&& 0x100 != 0) FLAG_C 0 ||| FLAG_N ||| h_halfcarry_sub.getD (lookup &&& 0x07) 0 |||
      h_overflow_sub.getD (lookup >>> 4) 0 ||| h_sz53 (r % 256))
    s.b s.c s.d s.e s.hr s.lr s.sp

def h_alu_sbc (s : Z80State) (val : Nat) : Z80State :=
  let r := wrap16i ((s.a : Int) - (val : Int) - ((s.f &&& FLAG_C : Nat) : Int))
  let lookup := lookup8 s.a val r
  Z80State.mk (r % 256)
    (bsel_h (r &&& 0x100 != 0) FLAG_C 0 ||| FLAG_N ||| h_halfcarry_sub.getD (lookup &&& 0x07) 0 |||
      h_overflow_sub.getD (lookup >>> 4) 0 ||| h_sz53 (r % 256))
    s.b s.c s.d s.e s.hr s.lr s.sp

def h_alu_and (s : Z80State) (val : Nat) : Z80State :=
  Z80State.mk (s.a &&& val) (FLAG_H ||| h_sz53p (s.a &&& val)) s.b s.c s.d s.e s.hr s.lr s.sp

def h_alu_xor (s : Z80State) (val : Nat) : Z80State :=
  Z80State.mk ((s.a ^^^ val) % 256) (h_sz53p ((s.a ^^^ val) % 256)) s.b s.c s.d s.e s.hr s.lr s.sp

def h_alu_or (s : Z80State) (val : Nat) : Z80State :=
  Z80State.mk ((s.a ||| val) % 256) (h_sz53p ((s.a ||| val) % 256)) s.b s.c s.d s.e s.hr s.lr s.sp

def h_alu_cp (s : Z80State) (val : Nat) : Z80State :=
  let r := wrap16i ((s.a : Int) - (val : Int))
  let lookup := lookup8 s.a val r
  Z80State.mk s.a
    (bsel_h (r &&& 0x100 != 0) FLAG_C (bsel_h (r != 0) 0 FLAG_Z) ||| FLAG_N |||
      h_halfcarry_sub.getD (lookup &&& 0x07) 0 ||| h_overflow_sub.getD (lookup >>> 4) 0 |||
      (val &&& (FLAG_3 ||| FLAG_5)) ||| (r &&& FLAG_S))
    s.b s.c s.d s.e s.hr s.lr s.sp

def h_alu_inc (s : Z80State) (reg : Nat) : Z80State :=
  let s1 := regSet s reg ((regGet s reg + 1) % 256)
  regSet s1 1 ((s1.f &&& FLAG_C) ||| bsel_h (regGet s1 reg == 0x80) FLAG_V 0 |||
    bsel_h ((regGet s1 reg &&& 0x0F) != 0) 0 FLAG_H ||| h_sz53 (regGet s1 reg))

def h_alu_dec (s : Z80State) (reg : Nat) : Z80State :=
  let s1 := regSet s 1 ((s.f &&& FLAG_C) ||| bsel_h ((regGet s reg &&& 0x0F) != 0) 0 FLAG_H |||
    FLAG_N)
  let s2 := regSet s1 reg ((regGet s1 reg + 255) % 256)
  regSet s2 1 (s2.f ||| (bsel_h (regGet s2 reg == 0x7F) FLAG_V 0 ||| h_sz53 (regGet s2 reg)))

-- ============================================================
-- CB-prefixed rotate/shift engine: each returns (state with new F, new value)
-- ============================================================

def h_cb_rlc (s : Z80State) (v : Nat) : Z80State × Nat :=
  let v2 := ((v <<< 1) ||| (v >>> 7)) % 256
  (regSet s 1 ((v2 &&& FLAG_C) ||| h_sz53p v2), v2)

def h_cb_rrc (s : Z80State) (v : Nat) : Z80State × Nat :=
  let s1 := regSet s 1 (v &&& FLAG_C)
  let v2 := ((v >>> 1) ||| (v <<< 7)) % 256
  (regSet s1 1 (s1.f ||| h_sz53p v2), v2)

def h_cb_rl (s : Z80State) (v : Nat) : Z80State × Nat :=
  let v2 := ((v <<< 1) ||| (s.f &&& FLAG_C)) % 256
  (regSet s 1 ((v >>> 7) ||| h_sz53p v2), v2)

def h_cb_rr (s : Z80State) (v : Nat) : Z80State × Nat :=
  let v2 := ((v >>> 1) ||| (s.f <<< 7)) % 256
  (regSet s 1 ((v &&& FLAG_C) ||| h_sz53p v2), v2)

def h_cb_sla (s : Z80State) (v : Nat) : Z80State × Nat :=
  let v2 := (v <<< 1) % 256
  (regSet s 1 ((v >>> 7) ||| h_sz53p v2), v2)

def h_cb_sra (s : Z80State) (v : Nat) : Z80State × Nat :=
  let v2 := ((v &&& 0x80) ||| (v >>> 1)) % 256
  (regSet s 1 ((v &&& FLAG_C) ||| h_sz53p v2), v2)

def h_cb_srl (s : Z80State) (v : Nat) : Z80State × Nat :=
  let v2 := (v >>> 1) % 256
  (regSet s 1 ((v &&& FLAG_C) ||| h_sz53p v2), v2)

def h_cb_sll (s : Z80State) (v : Nat) : Z80State × Nat :=
  let v2 := ((v <<< 1) ||| 0x01) % 256
  (regSet s 1 ((v >>> 7) ||| h_sz53p v2), v2)

def h_exec_bit (s : Z80State) (val bit : Nat) : Z80State :=
  let f1 := (s.f &&& FLAG_C) ||| FLAG_H ||| (val &&& (FLAG_3 ||| FLAG_5))
  let f2 := if val &&& (1 <<< bit) = 0 then f1 ||| (FLAG_P ||| FLAG_Z) else f1
  let f3 := if bit = 7 ∧ val &&& 0x80 ≠ 0 then f2 ||| FLAG_S else f2
  regSet s 1 f3

-- ============================================================
-- 16-bit & miscellaneous engine
-- ============================================================

def h_exec_daa (s : Z80State) : Z80State :=
  let carry := s.f &&& FLAG_C
  let add1 := if s.f &&& FLAG_H ≠ 0 ∨ (s.a &&& 0x0F) > 9 then 6 else 0
  let add2 := if carry ≠ 0 ∨ s.a > 0x99 then add1 ||| 0x60 else add1
  let carry2 := if s.a > 0x99 then FLAG_C else carry
  let s1 := if s.f &&& FLAG_N ≠ 0 then h_alu_sub s add2 else h_alu_add s add2
  regSet s1 1 ((s1.f &&& 0xFFFFFFFA) ||| carry2 ||| h_parity s1.a)

def h_exec_add_hl (s : Z80State) (val : Nat) : Z80State :=
  let hl := (s.hr <<< 8) ||| s.lr
  let result := (hl + val) % 4294967296
  let hc := ((hl &&& 0x0FFF) + (val &&& 0x0FFF)) % 65536
  let f2 := (s.f &&& (FLAG_S ||| FLAG_Z ||| FLAG_P)) |||
    bsel_h (hc &&& 0x1000 != 0) FLAG_H 0 ||| bsel_h (result &&& 0x10000 != 0) FLAG_C 0 |||
    (((result >>> 8) % 256) &&& (FLAG_3 ||| FLAG_5))
  Z80State.mk s.a f2 s.b s.c s.d s.e ((result >>> 8) % 256) (result % 256) s.sp

def h_exec_adc_hl (s : Z80State) (val : Nat) : Z80State :=
  let hl := (s.hr <<< 8) ||| s.lr
  let carry := s.f &&& FLAG_C
  let result := (hl + val + carry) % 4294967296
  let lookup := ((hl &&& 0x8800) >>> 11) ||| ((val &&& 0x8800) >>> 10) |||
    ((result &&& 0x8800) >>> 9)
  let h2 := (result >>> 8) % 256
  let l2 := result % 256
  let f2 := bsel_h (result &&& 0x10000 != 0) FLAG_C 0 ||| h_overflow_add.getD (lookup >>> 4) 0 |||
    (h2 &&& (FLAG_3 ||| FLAG_5 ||| FLAG_S)) ||| h_halfcarry_add.getD (lookup &&& 0x07) 0 |||
    bsel_h ((h2 ||| l2) != 0) 0 FLAG_Z
  Z80State.mk s.a f2 s.b s.c s.d s.e h2 l2 s.sp

def h_exec_sbc_hl (s : Z80State) (val : Nat) : Z80State :=
  let hl := (s.hr <<< 8) ||| s.lr
  let carry := s.f &&& FLAG_C
  let result := wrap32i ((hl : Int) - (val : Int) - (carry : Int))
  let lookup := ((hl &&& 0x8800) >>> 11) ||| ((val &&& 0x8800) >>> 10) |||
    ((result &&& 0x8800) >>> 9)
  let h2 := (result >>> 8) % 256
  let l2 := result % 256
  let f2 := bsel_h (result &&& 0x10000 != 0) FLAG_C 0 ||| FLAG_N |||
    h_overflow_sub.getD (lookup >>> 4) 0 ||| (h2 &&& (FLAG_3 ||| FLAG_5 ||| FLAG_S)) |||
    h_halfcarry_sub.getD (lookup &&& 0x07) 0 ||| bsel_h ((h2 ||| l2) != 0) 0 FLAG_Z
  Z80State.mk s.a f2 s.b s.c s.d s.e h2 l2 s.sp

def h_get_pair (s : Z80State) (pair : Nat) : Nat :=
  match pair with
  | 0 => (s.b <<< 8) ||| s.c
  | 1 => (s.d <<< 8) ||| s.e
  | 2 => (s.hr <<< 8) ||| s.lr
  | 3 => s.sp
  | _ => 0

/-- h_set_pair takes a uint16_t parameter, so the argument converts mod 65536. -/
def h_set_pair (s : Z80State) (pair val : Nat) : Z80State :=
  let v := val % 65536
  match pair with
  | 0 => Z80State.mk s.a s.f ((v >>> 8) % 256) (v % 256) s.d s.e s.hr s.lr s.sp
  | 1 => Z80State.mk s.a s.f s.b s.c ((v >>> 8) % 256) (v % 256) s.hr s.lr s.sp
  | 2 => Z80State.mk s.a s.f s.b s.c s.d s.e ((v >>> 8) % 256) (v % 256) s.sp
  | 3 => Z80State.mk s.a s.f s.b s.c s.d s.e s.hr s.lr v
  | _ => s

-- ============================================================
-- Opcode dispatcher
-- ============================================================

def h_alu_dispatch (s : Z80State) (aluop val : Nat) : Z80State :=
  match aluop with
  | 0 => h_alu_add s val
  | 1 => h_alu_adc s val
  | 2 => h_alu_sub s val
  | 3 => h_alu_sbc s val
  | 4 => h_alu_and s val
  | 5 => h_alu_xor s val
  | 6 => h_alu_or s val
  | 7 => h_alu_cp s val
  | _ => s

def h_cb_dispatch (s : Z80State) (cbop reg : Nat) : Z80State :=
  match cbop with
  | 0 => let p := h_cb_rlc s (regGet s reg); regSet p.1 reg p.2
  | 1 => let p := h_cb_rrc s (regGet s reg); regSet p.1 reg p.2
  | 2 => let p := h_cb_rl s (regGet s reg); regSet p.1 reg p.2
  | 3 => let p := h_cb_rr s (regGet s reg); regSet p.1 reg p.2
  | 4 => let p := h_cb_sla s (regGet s reg); regSet p.1 reg p.2
  | 5 => let p := h_cb_sra s (regGet s reg); regSet p.1 reg p.2
  | 6 => let p := h_cb_srl s (regGet s reg); regSet p.1 reg p.2
  | _ => s

/-- Full host-side instruction executor (h_exec_instruction). -/
def h_exec_instruction (s : Z80State) (op imm : Nat) : Z80State :=
  if op < 49 then regSet s (LD_DST_H.getD (op / 7) 0) (regGet s (LD_FULL_SRC_H.getD op 0))
  else if op < 56 then regSet s (IMM_REG_H.getD (op - 49) 0) (imm % 256)
  else if op < 120 then
    h_alu_dispatch s ((op - 56) / 8)
      (if (op - 56) % 8 < 7 then regGet s (ALU_SRC_H.getD ((op - 56) % 8) 0) else imm % 256)
  else if op < 127 then h_alu_inc s (INCDEC_REG_H.getD (op - 120) 0)
  else if op < 134 then h_alu_dec s (INCDEC_REG_H.getD (op - 127) 0)
  else if op = OP_RLCA then
    let a2 := ((s.a <<< 1) ||| (s.a >>> 7)) % 256
    Z80State.mk a2 ((s.f &&& (FLAG_P ||| FLAG_Z ||| FLAG_S)) |||
      (a2 &&& (FLAG_C ||| FLAG_3 ||| FLAG_5))) s.b s.c s.d s.e s.hr s.lr s.sp
  else if op = OP_RRCA then
    let f1 := (s.f &&& (FLAG_P ||| FLAG_Z ||| FLAG_S)) ||| (s.a &&& FLAG_C)
    let a2 := ((s.a >>> 1) ||| (s.a <<< 7)) % 256
    Z80State.mk a2 (f1 ||| (a2 &&& (FLAG_3 ||| FLAG_5))) s.b s.c s.d s.e s.hr s.lr s.sp
  else if op = OP_RLA then
    let a2 := ((s.a <<< 1) ||| (s.f &&& FLAG_C)) % 256
    Z80State.mk a2 ((s.f &&& (FLAG_P ||| FLAG_Z ||| FLAG_S)) |||
      (a2 &&& (FLAG_3 ||| FLAG_5)) ||| (s.a >>> 7)) s.b s.c s.d s.e s.hr s.lr s.sp
  else if op = OP_RRA then
    let a2 := ((s.a >>> 1) ||| (s.f <<< 7)) % 256
    Z80State.mk a2 ((s.f &&& (FLAG_P ||| FLAG_Z ||| FLAG_S)) |||
      (a2 &&& (FLAG_3 ||| FLAG_5)) ||| (s.a &&& FLAG_C)) s.b s.c s.d s.e s.hr s.lr s.sp
  else if op = OP_DAA then h_exec_daa s
  else if op = OP_CPL then
    let a2 := s.a ^^^ 0xFF
    Z80State.mk a2 ((s.f &&& (FLAG_C ||| FLAG_P ||| FLAG_Z ||| FLAG_S)) |||
      (a2 &&& (FLAG_3 ||| FLAG_5)) ||| FLAG_N ||| FLAG_H) s.b s.c s.d s.e s.hr s.lr s.sp
  else if op = OP_SCF then
    regSet s 1 ((s.f &&& (FLAG_P ||| FLAG_Z ||| FLAG_S)) |||
      (s.a &&& (FLAG_3 ||| FLAG_5)) ||| FLAG_C)
  else if op = OP_CCF then
    let c := s.f &&& FLAG_C
    let f1 := (s.f &&& (FLAG_P ||| FLAG_Z ||| FLAG_S)) ||| (s.a &&& (FLAG_3 ||| FLAG_5))
    regSet s 1 (if c ≠ 0 then f1 ||| FLAG_H else f1 ||| FLAG_C)
  else if op = OP_NEG then h_alu_sub (regSet s 0 0) s.a
  else if op = OP_NOP then s
  else if OP_CB_START ≤ op ∧ op ≤ 192 then
    h_cb_dispatch s ((op - OP_CB_START) / 7) (CB_REG_H.getD ((op - OP_CB_START) % 7) 0)
  else if op = OP_SLL_A then
    let p := h_cb_sll s s.a
    regSet p.1 0 p.2
  else if OP_SLL_B_START ≤ op ∧ op < 200 then
    let reg := CB_REG_H.getD ((op - OP_SLL_B_START) + 1) 0
    let p := h_cb_sll s (regGet s reg)
    regSet p.1 reg p.2
  else if OP_BIT_START ≤ op ∧ op < OP_RES_START then
    h_exec_bit s (regGet s (CB_REG_H.getD ((op - OP_BIT_START) % 7) 0)) ((op - OP_BIT_START) / 7)
  else if OP_RES_START ≤ op ∧ op < OP_SET_START then
    let idx := op - OP_RES_START
    let reg := CB_REG_H.getD (idx % 7) 0
    regSet s reg (regGet s reg &&& (0xFFFFFFFF ^^^ (1 <<< (idx / 7))))
  else if OP_SET_START ≤ op ∧ op < OP_16INC_START then
    let idx := op - OP_SET_START
    let reg := CB_REG_H.getD (idx % 7) 0
    regSet s reg ((regGet s reg ||| (1 <<< (idx / 7))) % 256)
  else if OP_16INC_START ≤ op ∧ op < OP_ADD_HL_START then
    let idx := op - OP_16INC_START
    let pair := idx % 4
    let v := h_get_pair s pair
    if 4 ≤ idx then h_set_pair s pair (v + 65535) else h_set_pair s pair (v + 1)
  else if OP_ADD_HL_START ≤ op ∧ op < OP_EX_DE_HL then
    h_exec_add_hl s (h_get_pair s (op - OP_ADD_HL_START))
  else if op = OP_EX_DE_HL then
    Z80State.mk s.a s.f s.b s.c s.hr s.lr s.d s.e s.sp
  else if op = OP_LD_SP_HL then
    Z80State.mk s.a s.f s.b s.c s.d s.e s.hr s.lr ((s.hr <<< 8) ||| s.lr)
  else if OP_LD_RR_NN_START ≤ op ∧ op < OP_ADC_HL_START then
    h_set_pair s (op - OP_LD_RR_NN_START) imm
  else if OP_ADC_HL_START ≤ op ∧ op < OP_SBC_HL_START then
    h_exec_adc_hl s (h_get_pair s (op - OP_ADC_HL_START))
  else if OP_SBC_HL_START ≤ op ∧ op < OP_COUNT then
    h_exec_sbc_hl s (h_get_pair s (op - OP_SBC_HL_START))
  else s

-- ============================================================
-- Sequence executor and fingerprint
-- ============================================================

def h_exec_seq (s : Z80State) (seq : List (Nat × Nat)) : Z80State :=
  seq.foldl (fun t p => h_exec_instruction t p.1 p.2) s

/-- Register image of a state in fingerprint field order. -/
def stateBytes (s : Z80State) : List Nat :=
  [s.a, s.f, s.b, s.c, s.d, s.e, s.hr, s.lr, (s.sp >>> 8) % 256, s.sp % 256]

/-- Fingerprint: run the sequence on each of the 8 seed states and
concatenate the resulting register images. -/
def h_fingerprint (seq : List (Nat × Nat)) : List Nat :=
  (h_test_vectors.map fun v => stateBytes (h_exec_seq v seq)).flatten

/-- Compare states, optionally masking dead flags. -/
def h_states_equal (x y : Z80State) (dead_flags : Nat) : Bool :=
  x.a == y.a && ((x.f &&& (0xFFFFFFFF ^^^ (dead_flags % 256))) ==
    (y.f &&& (0xFFFFFFFF ^^^ (dead_flags % 256)))) &&
  x.b == y.b && x.c == y.c && x.d == y.d && x.e == y.e &&
  x.hr == y.hr && x.lr == y.lr && x.sp == y.sp

-- ============================================================
-- Dispatch classifier and decode-index bounds (for the dispatcher claims)
-- ============================================================

inductive OpFam where
  | ldrr | ldrn | alu | inc8 | dec8 | rlca | rrca | rla | rra | daa | cpl
  | scf | ccf | neg | nop | cb | sllA | sllB | bitop | resop | setop
  | inc16 | addhl | exdehl | ldsphl | ldrrnn | adchl | sbchl
deriving DecidableEq

/-- The family selected by the dispatcher's ordered interval tests. -/
def opFamily (op : Nat) : Option OpFam :=
  if op < 49 then some OpFam.ldrr
  else if op < 56 then some OpFam.ldrn
  else if op < 120 then some OpFam.alu
  else if op < 127 then some OpFam.inc8
  else if op < 134 then some OpFam.dec8
  else if op = OP_RLCA then some OpFam.rlca
  else if op = OP_RRCA then some OpFam.rrca
  else if op = OP_RLA then some OpFam.rla
  else if op = OP_RRA then some OpFam.rra
  else if op = OP_DAA then some OpFam.daa
  else if op = OP_CPL then some OpFam.cpl
  else if op = OP_SCF then some OpFam.scf
  else if op = OP_CCF then some OpFam.ccf
  else if op = OP_NEG then some OpFam.neg
  else if op = OP_NOP then some OpFam.nop
  else if OP_CB_START ≤ op ∧ op ≤ 192 then some OpFam.cb
  else if op = OP_SLL_A then some OpFam.sllA
  else if OP_SLL_B_START ≤ op ∧ op < 200 then some OpFam.sllB
  else if OP_BIT_START ≤ op ∧ op < OP_RES_START then some OpFam.bitop
  else if OP_RES_START ≤ op ∧ op < OP_SET_START then some OpFam.resop
  else if OP_SET_START ≤ op ∧ op < OP_16INC_START then some OpFam.setop
  else if OP_16INC_START ≤ op ∧ op < OP_ADD_HL_START then some OpFam.inc16
  else if OP_ADD_HL_START ≤ op ∧ op < OP_EX_DE_HL then some OpFam.addhl
  else if op = OP_EX_DE_HL then some OpFam.exdehl
  else if op = OP_LD_SP_HL then some OpFam.ldsphl
  else if OP_LD_RR_NN_START ≤ op ∧ op < OP_ADC_HL_START then some OpFam.ldrrnn
  else if OP_ADC_HL_START ≤ op ∧ op < OP_SBC_HL_START then some OpFam.adchl
  else if OP_SBC_HL_START ≤ op ∧ op < OP_COUNT then some OpFam.sbchl
  else none

/-- The half-open opcode intervals of the families, in dispatch order. -/
def famIntervals : List (Nat × Nat) :=
  [(0, 49), (49, 56), (56, 120), (120, 127), (127, 134),
   (134, 135), (135, 136), (136, 137), (137, 138), (138, 139), (139, 140),
   (140, 141), (141, 142), (142, 143), (143, 144),
   (144, 193), (193, 194), (194, 200), (200, 256), (256, 312), (312, 368),
   (368, 376), (376, 380), (380, 381), (381, 382), (382, 386), (386, 390), (390, 394)]

/-- Every decode-table index computed by the dispatcher for this opcode is
within the bounds of the table it indexes, and every register number read
from a decode table addresses one of the 8 registers. -/
def boundsOK (op : Nat) : Prop :=
  (if op < 49 then op / 7 < LD_DST_H.length ∧ op < LD_FULL_SRC_H.length ∧
    LD_DST_H.getD (op / 7) 0 < 8 ∧ LD_FULL_SRC_H.getD op 0 < 8 else True) ∧
  (if 49 ≤ op ∧ op < 56 then op - 49 < IMM_REG_H.length ∧
    IMM_REG_H.getD (op - 49) 0 < 8 else True) ∧
  (if 56 ≤ op ∧ op < 120 then (op - 56) / 8 < 8 ∧
    (if (op - 56) % 8 < 7 then (op - 56) % 8 < ALU_SRC_H.length ∧
      ALU_SRC_H.getD ((op - 56) % 8) 0 < 8 else True) else True) ∧
  (if 120 ≤ op ∧ op < 127 then op - 120 < INCDEC_REG_H.length ∧
    INCDEC_REG_H.getD (op - 120) 0 < 8 else True) ∧
  (if 127 ≤ op ∧ op < 134 then op - 127 < INCDEC_REG_H.length ∧
    INCDEC_REG_H.getD (op - 127) 0 < 8 else True) ∧
  (if 144 ≤ op ∧ op ≤ 192 then (op - 144) / 7 < 7 ∧ (op - 144) % 7 < CB_REG_H.length ∧
    CB_REG_H.getD ((op - 144) % 7) 0 < 8 else True) ∧
  (if 194 ≤ op ∧ op < 200 then (op - 194) + 1 < CB_REG_H.length ∧
    CB_REG_H.getD ((op - 194) + 1) 0 < 8 else True) ∧
  (if 200 ≤ op ∧ op < 256 then (op - 200) % 7 < CB_REG_H.length ∧ (op - 200) / 7 < 8
    else True) ∧
  (if 256 ≤ op ∧ op < 312 then (op - 256) % 7 < CB_REG_H.length ∧ (op - 256) / 7 < 8
    else True) ∧
  (if 312 ≤ op ∧ op < 368 then (op - 312) % 7 < CB_REG_H.length ∧ (op - 312) / 7 < 8
    else True) ∧
  (if 368 ≤ op ∧ op < 376 then (op - 368) % 4 < 4 else True) ∧
  (if 376 ≤ op ∧ op < 380 then op - 376 < 4 else True) ∧
  (if 382 ≤ op ∧ op < 386 then op - 382 < 4 else True) ∧
  (if 386 ≤ op ∧ op < 390 then op - 386 < 4 else True) ∧
  (if 390 ≤ op ∧ op < 394 then op - 390 < 4 else True)

instance (op : Nat) : Decidable (boundsOK op) := by unfold boundsOK; infer_instance

/-- The all-zero seed state (seed index 0). -/
def seed0 : Z80State := Z80State.mk 0 0 0 0 0 0 0 0 0

-- ============================================================
-- Claim theorems
-- ============================================================

set_option maxRecDepth 40000 in
set_option maxHeartbeats 1600000 in
/-- Claim C1 counterexample: opcode 63 (ALU add with immediate operand) is
outside both the immediate-load family [49,56) and the 16-bit
immediate-load family [382,386), yet the immediate is not ignored. -/
theorem c1_counterexample :
    (¬(49 ≤ 63 ∧ 63 < 56)) ∧ (¬(382 ≤ 63 ∧ 63 < 386)) ∧
    h_exec_instruction seed0 63 0 ≠ h_exec_instruction seed0 63 1 := by
  decide

set_option maxHeartbeats 1600000 in
/-- Claim C1 (amended): the immediate is ignored by every opcode outside
the immediate-load family [49,56), the 16-bit immediate-load family
[382,386), and the ALU-immediate opcodes (op in [56,120) with
(op-56) mod 8 = 7). -/
theorem c1_immediate_ignored (s : Z80State) (i1 i2 op : Nat)
    (h1 : ¬(49 ≤ op ∧ op < 56)) (h2 : ¬(382 ≤ op ∧ op < 386))
    (h3 : ¬(56 ≤ op ∧ op < 120 ∧ (op - 56) % 8 = 7)) :
    h_exec_instruction s op i1 = h_exec_instruction s op i2 := by
  unfold h_exec_instruction OP_RLCA OP_RRCA OP_RLA OP_RRA OP_DAA OP_CPL
    OP_SCF OP_CCF OP_NEG OP_NOP OP_CB_START OP_SLL_A OP_SLL_B_START OP_BIT_START
    OP_RES_START OP_SET_START OP_16INC_START OP_ADD_HL_START OP_EX_DE_HL OP_LD_SP_HL
    OP_LD_RR_NN_START OP_ADC_HL_START OP_SBC_HL_START OP_COUNT
  by_cases h01 : op < 49
  · rw [if_pos h01, if_pos h01]
  · have h02 : ¬ op < 56 := fun hlt => h1 ⟨by omega, hlt⟩
    rw [if_neg h02, if_neg h02]
    by_cases h03 : op < 120
    · have hmod : (op - 56) % 8 < 7 := by omega
      rw [if_pos h03, if_pos h03, if_pos hmod, if_pos hmod]
    · rw [if_neg h03, if_neg h03, if_neg h2, if_neg h2]

set_option maxRecDepth 40000 in
set_option maxHeartbeats 1600000 in
theorem c1_immediate_ignored_witness :
    (¬(49 ≤ 143 ∧ 143 < 56)) ∧ (¬(382 ≤ 143 ∧ 143 < 386)) ∧
    (¬(56 ≤ 143 ∧ 143 < 120 ∧ (143 - 56) % 8 = 7)) ∧
    h_exec_instruction seed0 143 5 = h_exec_instruction seed0 143 9 :=
  ⟨by decide, by decide, by decide,
    c1_immediate_ignored seed0 5 9 143 (by decide) (by decide) (by decide)⟩

set_option maxRecDepth 40000 in
set_option maxHeartbeats 1600000 in
/-- Claim C3: every opcode below OP_COUNT is classified by the dispatcher
into exactly one family interval, the classifier selects a family for it,
and every decode-table index it computes is within table bounds. -/
theorem c3_total_dispatch : ∀ op, op < OP_COUNT →
    (opFamily op).isSome = true ∧
    (famIntervals.filter (fun p => decide (p.1 ≤ op ∧ op < p.2))).length = 1 ∧
    boundsOK op := by
  decide

set_option maxRecDepth 40000 in
set_option maxHeartbeats 1600000 in
theorem c3_total_dispatch_witness : 100 < OP_COUNT ∧
    ((opFamily 100).isSome = true ∧
      (famIntervals.filter (fun p => decide (p.1 ≤ 100 ∧ 100 < p.2))).length = 1 ∧
      boundsOK 100) :=
  ⟨by decide, c3_total_dispatch 100 (by decide)⟩

/-- Claim C4: the fingerprint is a deterministic pure function of the
instruction sequence with a fixed 80-byte output. -/
theorem c4_fingerprint_deterministic : ∀ seq1 seq2 : List (Nat × Nat), seq1 = seq2 →
    h_fingerprint seq1 = h_fingerprint seq2 ∧ (h_fingerprint seq1).length = 80 := by
  intro s1 s2 h
  subst h
  refine ⟨rfl, ?_⟩
  simp [h_fingerprint, h_test_vectors, stateBytes]

theorem c4_fingerprint_deterministic_witness :
    ([((143 : Nat), (0 : Nat))] = [((143 : Nat), (0 : Nat))]) ∧
    (h_fingerprint [(143, 0)] = h_fingerprint [(143, 0)] ∧
      (h_fingerprint [(143, 0)]).length = 80) :=
  ⟨rfl, c4_fingerprint_deterministic [(143, 0)] [(143, 0)] rfl⟩

set_option maxRecDepth 40000 in
/-- Claim C5: the built flag tables match their closed forms: sz53 is the
value masked to 0xA8 plus the zero flag exactly at 0, parity has the
parity bit set exactly when the number of one-bits is even, and sz53p is
the bitwise or of the two. -/
theorem c5_flag_tables : ∀ v, v < 256 →
    h_sz53 v = ((v &&& 0xA8) ||| (if v = 0 then FLAG_Z else 0)) ∧
    h_parity v = (if ((List.range 8).filter (fun k => v.testBit k)).length % 2 = 0
      then FLAG_P else 0) ∧
    h_sz53p v = (h_sz53 v ||| h_parity v) := by
  decide

set_option maxRecDepth 40000 in
theorem c5_flag_tables_witness : 5 < 256 ∧
    (h_sz53 5 = ((5 &&& 0xA8) ||| (if 5 = 0 then FLAG_Z else 0)) ∧
    h_parity 5 = (if ((List.range 8).filter (fun k => (5 : Nat).testBit k)).length % 2 = 0
      then FLAG_P else 0) ∧
    h_sz53p 5 = (h_sz53 5 ||| h_parity 5)) :=
  ⟨by decide, c5_flag_tables 5 (by decide)⟩

set_option maxRecDepth 40000 in
set_option maxHeartbeats 1600000 in
/-- Claim C9: NOP (opcode 143) leaves every register and the pair register
unchanged, and the fingerprint segment of seed 0 under the sequence
consisting of a single NOP is the raw seed bytes. -/
theorem c9_nop_identity :
    (∀ (s : Z80State) (imm : Nat), h_exec_instruction s OP_NOP imm = s) ∧
    (h_fingerprint [(OP_NOP, 0)]).take 10 = stateBytes seed0 := by
  exact ⟨fun s imm => rfl, by decide⟩

set_option maxHeartbeats 1600000 in
/-- Claim C10: every opcode at or above OP_COUNT falls through all the
dispatcher's interval tests and leaves the state completely unchanged. -/
theorem c10_out_of_range_inert (s : Z80State) (op imm : Nat) (h : OP_COUNT ≤ op) :
    h_exec_instruction s op imm = s := by
  unfold OP_COUNT at h
  unfold h_exec_instruction OP_RLCA OP_RRCA OP_RLA OP_RRA OP_DAA OP_CPL
    OP_SCF OP_CCF OP_NEG OP_NOP OP_CB_START OP_SLL_A OP_SLL_B_START OP_BIT_START
    OP_RES_START OP_SET_START OP_16INC_START OP_ADD_HL_START OP_EX_DE_HL OP_LD_SP_HL
    OP_LD_RR_NN_START OP_ADC_HL_START OP_SBC_HL_START OP_COUNT
  rw [if_neg (show ¬ op < 49 by omega), if_neg (show ¬ op < 56 by omega),
    if_neg (show ¬ op < 120 by omega), if_neg (show ¬ op < 127 by omega),
    if_neg (show ¬ op < 134 by omega), if_neg (show ¬ op = 134 by omega),
    if_neg (show ¬ op = 135 by omega), if_neg (show ¬ op = 136 by omega),
    if_neg (show ¬ op = 137 by omega), if_neg (show ¬ op = 138 by omega),
    if_neg (show ¬ op = 139 by omega), if_neg (show ¬ op = 140 by omega),
    if_neg (show ¬ op = 141 by omega), if_neg (show ¬ op = 142 by omega),
    if_neg (show ¬ op = 143 by omega), if_neg (show ¬ (144 ≤ op ∧ op ≤ 192) by omega),
    if_neg (show ¬ op = 193 by omega), if_neg (show ¬ (194 ≤ op ∧ op < 200) by omega),
    if_neg (show ¬ (200 ≤ op ∧ op < 256) by omega),
    if_neg (show ¬ (256 ≤ op ∧ op < 312) by omega),
    if_neg (show ¬ (312 ≤ op ∧ op < 368) by omega),
    if_neg (show ¬ (368 ≤ op ∧ op < 376) by omega),
    if_neg (show ¬ (376 ≤ op ∧ op < 380) by omega),
    if_neg (show ¬ op = 380 by omega), if_neg (show ¬ op = 381 by omega),
    if_neg (show ¬ (382 ≤ op ∧ op < 386) by omega),
    if_neg (show ¬ (386 ≤ op ∧ op < 390) by omega),
    if_neg (show ¬ (390 ≤ op ∧ op < 394) by omega)]

set_option maxRecDepth 40000 in
set_option maxHeartbeats 1600000 in
theorem c10_out_of_range_inert_witness :
    OP_COUNT ≤ 400 ∧ h_exec_instruction seed0 400 7 = seed0 :=
  ⟨by decide, c10_out_of_range_inert seed0 400 7 (by decide)⟩

-- ============================================================
-- Bit-level helper lemmas for the flag-table proofs
-- ============================================================

theorem and_two_pow_eq (x i : Nat) : x &&& 2 ^ i = 2 ^ i * (x / 2 ^ i % 2) := by
  rw [Nat.and_two_pow, Nat.testBit_to_div_mod]
  rcases Nat.mod_two_eq_zero_or_one (x / 2 ^ i) with hm | hm <;> rw [hm] <;> simp [Nat.mul_comm]

/-- Decomposition of the 0x88 bit mask into bits 3 and 7. -/
theorem and136_decomp (x : Nat) : x &&& 136 = 8 * (x / 8 % 2) + 128 * (x / 128 % 2) := by
  have e : (136 : Nat) = 128 ||| 8 := by decide
  have h8 : x &&& 8 = 8 * (x / 8 % 2) := by
    have := and_two_pow_eq x 3
    norm_num at this
    exact this
  have h128 : x &&& 128 = 128 * (x / 128 % 2) := by
    have := and_two_pow_eq x 7
    norm_num at this
    exact this
  have hor : 128 * (x / 128 % 2) + 8 * (x / 8 % 2) =
      128 * (x / 128 % 2) ||| 8 * (x / 8 % 2) := by
    have hlt : 8 * (x / 8 % 2) < 2 ^ 7 := by
      have := Nat.mod_lt (x / 8) (show 0 < 2 by norm_num)
      omega
    have := Nat.mul_add_lt_is_or hlt (x / 128 % 2)
    norm_num at this
    exact this
  rw [e, Nat.and_or_distrib_left, h8, h128, ← hor]
  omega

/-- The low three bits and the bits 4..6 of the carry-trick lookup index,
as functions of bits 3 and 7 of the operands and the result. -/
theorem lookup8_indices (a v r : Nat) :
    (lookup8 a v r &&& 7 = a / 8 % 2 + 2 * (v / 8 % 2) + 4 * (r / 8 % 2)) ∧
    (lookup8 a v r >>> 4 = a / 128 % 2 + 2 * (v / 128 % 2) + 4 * (r / 128 % 2)) := by
  unfold lookup8
  rw [show (0x88 : Nat) = 136 from rfl, and136_decomp a, and136_decomp v, and136_decomp r]
  rcases Nat.mod_two_eq_zero_or_one (a / 8) with h1 | h1 <;>
    rcases Nat.mod_two_eq_zero_or_one (a / 128) with h2 | h2 <;>
    rcases Nat.mod_two_eq_zero_or_one (v / 8) with h3 | h3 <;>
    rcases Nat.mod_two_eq_zero_or_one (v / 128) with h4 | h4 <;>
    rcases Nat.mod_two_eq_zero_or_one (r / 8) with h5 | h5 <;>
    rcases Nat.mod_two_eq_zero_or_one (r / 128) with h6 | h6 <;>
    rw [h1, h2, h3, h4, h5, h6] <;> decide

theorem bsel_and_vanish {x y : Nat} (c : Bool) (m : Nat) (hx : x &&& m = 0)
    (hy : y &&& m = 0) : bsel_h c x y &&& m = 0 := by
  cases c <;> simp [bsel_h, hx, hy]

theorem sz53_and_vanish (v m : Nat) (h1 : (FLAG_3 ||| FLAG_5 ||| FLAG_S : Nat) &&& m = 0)
    (h2 : (FLAG_Z : Nat) &&& m = 0) : h_sz53 v &&& m = 0 := by
  unfold h_sz53
  split
  · rw [Nat.and_distrib_right, Nat.and_assoc, h1, Nat.and_zero, h2, Nat.or_zero]
  · rw [Nat.and_assoc, h1, Nat.and_zero]

theorem bselC_and16 (c : Bool) : bsel_h c FLAG_C 0 &&& 16 = 0 :=
  bsel_and_vanish c 16 (by decide) (by decide)

theorem bselC_and4 (c : Bool) : bsel_h c FLAG_C 0 &&& 4 = 0 :=
  bsel_and_vanish c 4 (by decide) (by decide)

theorem flagN_and16 : (FLAG_N : Nat) &&& 16 = 0 := by decide

theorem flagN_and4 : (FLAG_N : Nat) &&& 4 = 0 := by decide

theorem hcA_and16 (i : Nat) : h_halfcarry_add.getD i 0 &&& 16 = h_halfcarry_add.getD i 0 := by
  rcases i with _ | _ | _ | _ | _ | _ | _ | _ | i <;> first | rfl | simp [h_halfcarry_add]

theorem hcS_and16 (i : Nat) : h_halfcarry_sub.getD i 0 &&& 16 = h_halfcarry_sub.getD i 0 := by
  rcases i with _ | _ | _ | _ | _ | _ | _ | _ | i <;> first | rfl | simp [h_halfcarry_sub]

theorem hcA_and4 (i : Nat) : h_halfcarry_add.getD i 0 &&& 4 = 0 := by
  rcases i with _ | _ | _ | _ | _ | _ | _ | _ | i <;> first | rfl | simp [h_halfcarry_add]

theorem hcS_and4 (i : Nat) : h_halfcarry_sub.getD i 0 &&& 4 = 0 := by
  rcases i with _ | _ | _ | _ | _ | _ | _ | _ | i <;> first | rfl | simp [h_halfcarry_sub]

theorem ovA_and16 (i : Nat) : h_overflow_add.getD i 0 &&& 16 = 0 := by
  rcases i with _ | _ | _ | _ | _ | _ | _ | _ | i <;> first | rfl | simp [h_overflow_add]

theorem ovS_and16 (i : Nat) : h_overflow_sub.getD i 0 &&& 16 = 0 := by
  rcases i with _ | _ | _ | _ | _ | _ | _ | _ | i <;> first | rfl | simp [h_overflow_sub]

theorem ovA_and4 (i : Nat) : h_overflow_add.getD i 0 &&& 4 = h_overflow_add.getD i 0 := by
  rcases i with _ | _ | _ | _ | _ | _ | _ | _ | i <;> first | rfl | simp [h_overflow_add]

theorem ovS_and4 (i : Nat) : h_overflow_sub.getD i 0 &&& 4 = h_overflow_sub.getD i 0 := by
  rcases i with _ | _ | _ | _ | _ | _ | _ | _ | i <;> first | rfl | simp [h_overflow_sub]

theorem sz53_and16 (v : Nat) : h_sz53 v &&& 16 = 0 :=
  sz53_and_vanish v 16 (by decide) (by decide)

theorem sz53_and4 (v : Nat) : h_sz53 v &&& 4 = 0 :=
  sz53_and_vanish v 4 (by decide) (by decide)

/-- Signed (two's complement) reading of a byte value. -/
def signed8 (x : Nat) : Int := if x < 128 then (x : Int) else (x : Int) - 256

set_option maxHeartbeats 1600000 in
/-- Claim C2: for the 8-bit add, the half-carry flag (bit 4 of F) is set
exactly when the low nibbles of the accumulator and the operand sum past
0x0F, and the overflow flag (bit 2 of F) is set exactly when the signed
sum overflows; for the 8-bit sub, the half-carry flag is set exactly when
the accumulator's low nibble is less than the operand's, and the overflow
flag is set exactly when the signed difference overflows.  The 8-entry
carry-trick tables thus reproduce the arithmetic truth table exactly. -/
theorem c2_addsub_flags (s : Z80State) (hWF : WF s) (b : Nat) (hb : b < 256) :
    ((h_alu_add s b).f &&& FLAG_H ≠ 0 ↔ (s.a &&& 0x0F) + (b &&& 0x0F) > 0x0F) ∧
    ((h_alu_add s b).f &&& FLAG_V ≠ 0 ↔
      ¬(-128 ≤ signed8 s.a + signed8 b ∧ signed8 s.a + signed8 b < 128)) ∧
    ((h_alu_sub s b).f &&& FLAG_H ≠ 0 ↔ (s.a &&& 0x0F) < (b &&& 0x0F)) ∧
    ((h_alu_sub s b).f &&& FLAG_V ≠ 0 ↔
      ¬(-128 ≤ signed8 s.a - signed8 b ∧ signed8 s.a - signed8 b < 128)) := by
  obtain ⟨ha, -⟩ := hWF
  have hra : (s.a + b) % 65536 = s.a + b := Nat.mod_eq_of_lt (by omega)
  have hrs : wrap16i ((s.a : Int) - (b : Int)) = (s.a + 65536 - b) % 65536 := by
    unfold wrap16i
    omega
  have handa : s.a &&& 0x0F = s.a % 16 := by
    have := Nat.and_pow_two_sub_one_eq_mod s.a 4
    norm_num at this
    exact this
  have handb : b &&& 0x0F = b % 16 := by
    have := Nat.and_pow_two_sub_one_eq_mod b 4
    norm_num at this
    exact this
  simp only [FLAG_H, FLAG_V]
  refine ⟨?_, ?_, ?_, ?_⟩
  · have hf16 : (h_alu_add s b).f &&& 16 =
        h_halfcarry_add.getD (lookup8 s.a b ((s.a + b) % 65536) &&& 0x07) 0 := by
      simp only [h_alu_add]
      simp only [Nat.and_distrib_right, bselC_and16, ovA_and16, sz53_and16,
        Nat.zero_or, Nat.or_zero, hcA_and16]
    rw [hf16, hra, (lookup8_indices s.a b (s.a + b)).1, handa, handb]
    rcases Nat.mod_two_eq_zero_or_one (s.a / 8) with h1 | h1 <;>
      rcases Nat.mod_two_eq_zero_or_one (b / 8) with h2 | h2 <;>
      rcases Nat.mod_two_eq_zero_or_one ((s.a + b) / 8) with h3 | h3 <;>
      rw [h1, h2, h3] <;> simp [h_halfcarry_add, FLAG_H] <;> omega
  · have hf4 : (h_alu_add s b).f &&& 4 =
        h_overflow_add.getD (lookup8 s.a b ((s.a + b) % 65536) >>> 4) 0 := by
      simp only [h_alu_add]
      simp only [Nat.and_distrib_right, bselC_and4, hcA_and4, sz53_and4,
        Nat.zero_or, Nat.or_zero, ovA_and4]
    rw [hf4, hra, (lookup8_indices s.a b (s.a + b)).2]
    unfold signed8
    rcases Nat.mod_two_eq_zero_or_one (s.a / 128) with h1 | h1 <;>
      rcases Nat.mod_two_eq_zero_or_one (b / 128) with h2 | h2 <;>
      rcases Nat.mod_two_eq_zero_or_one ((s.a + b) / 128) with h3 | h3 <;>
      rw [h1, h2, h3] <;> simp [h_overflow_add, FLAG_V] <;> split_ifs <;> omega
  · have hf16 : (h_alu_sub s b).f &&& 16 =
        h_halfcarry_sub.getD (lookup8 s.a b (wrap16i ((s.a : Int) - (b : Int))) &&& 0x07) 0 := by
      simp only [h_alu_sub]
      simp only [Nat.and_distrib_right, bselC_and16, flagN_and16, ovS_and16, sz53_and16,
        Nat.zero_or, Nat.or_zero, hcS_and16]
    rw [hf16, hrs, (lookup8_indices s.a b ((s.a + 65536 - b) % 65536)).1, handa, handb]
    rcases Nat.mod_two_eq_zero_or_one (s.a / 8) with h1 | h1 <;>
      rcases Nat.mod_two_eq_zero_or_one (b / 8) with h2 | h2 <;>
      rcases Nat.mod_two_eq_zero_or_one ((s.a + 65536 - b) % 65536 / 8) with h3 | h3 <;>
      rw [h1, h2, h3] <;> simp [h_halfcarry_sub, FLAG_H] <;> omega
  · have hf4 : (h_alu_sub s b).f &&& 4 =
        h_overflow_sub.getD (lookup8 s.a b (wrap16i ((s.a : Int) - (b : Int))) >>> 4) 0 := by
      simp only [h_alu_sub]
      simp only [Nat.and_distrib_right, bselC_and4, flagN_and4, hcS_and4, sz53_and4,
        Nat.zero_or, Nat.or_zero, ovS_and4]
    rw [hf4, hrs, (lookup8_indices s.a b ((s.a + 65536 - b) % 65536)).2]
    unfold signed8
    rcases Nat.mod_two_eq_zero_or_one (s.a / 128) with h1 | h1 <;>
      rcases Nat.mod_two_eq_zero_or_one (b / 128) with h2 | h2 <;>
      rcases Nat.mod_two_eq_zero_or_one ((s.a + 65536 - b) % 65536 / 128) with h3 | h3 <;>
      rw [h1, h2, h3] <;> simp [h_overflow_sub, FLAG_V] <;> split_ifs <;> omega

set_option maxHeartbeats 800000 in
theorem c2_addsub_flags_witness : WF seed0 ∧ 119 < 256 ∧
    (((h_alu_add seed0 119).f &&& FLAG_H ≠ 0 ↔ (seed0.a &&& 0x0F) + (119 &&& 0x0F) > 0x0F) ∧
    ((h_alu_add seed0 119).f &&& FLAG_V ≠ 0 ↔
      ¬(-128 ≤ signed8 seed0.a + signed8 119 ∧ signed8 seed0.a + signed8 119 < 128)) ∧
    ((h_alu_sub seed0 119).f &&& FLAG_H ≠ 0 ↔ (seed0.a &&& 0x0F) < (119 &&& 0x0F)) ∧
    ((h_alu_sub seed0 119).f &&& FLAG_V ≠ 0 ↔
      ¬(-128 ≤ signed8 seed0.a - signed8 119 ∧ signed8 seed0.a - signed8 119 < 128))) :=
  ⟨by decide, by decide, c2_addsub_flags seed0 (by decide) 119 (by decide)⟩

-- ============================================================
-- Register access helper lemmas
-- ============================================================

theorem regSet_f_one (s : Z80State) (v : Nat) : (regSet s 1 v).f = v := rfl

theorem regSet_f_eq (s : Z80State) (r v : Nat) (hr : r < 8) (hne : r ≠ 1) :
    (regSet s r v).f = s.f := by
  interval_cases r <;> first | rfl | exact absurd rfl hne

theorem regSet_sp_eq (s : Z80State) (i v : Nat) : (regSet s i v).sp = s.sp := by
  unfold regSet
  split <;> rfl

theorem regGet_regSet_self (s : Z80State) (r v : Nat) (hr : r < 8) :
    regGet (regSet s r v) r = v := by
  interval_cases r <;> rfl

theorem regGet_regSet_ne (s : Z80State) (r j v : Nat) (hr : r < 8) (hj : j < 8)
    (hne : j ≠ r) : regGet (regSet s r v) j = regGet s j := by
  interval_cases r <;> interval_cases j <;> first | rfl | exact absurd rfl hne

theorem regGet_lt_of_WF (s : Z80State) (h : WF s) (j : Nat) (hj : j < 8) :
    regGet s j < 256 := by
  obtain ⟨h1, h2, h3, h4, h5, h6, h7, h8, h9⟩ := h
  interval_cases j <;> simp_all [regGet]

theorem and11 (x : Nat) : (x &&& 1) &&& 1 = x &&& 1 := by
  rw [Nat.and_assoc, show ((1 : Nat) &&& 1) = 1 by decide]

theorem bselV_and1 (c : Bool) : bsel_h c FLAG_V 0 &&& 1 = 0 :=
  bsel_and_vanish c 1 (by decide) (by decide)

theorem bselH0_and1 (c : Bool) : bsel_h c 0 FLAG_H &&& 1 = 0 :=
  bsel_and_vanish c 1 (by decide) (by decide)

theorem flagN_and1 : (FLAG_N : Nat) &&& 1 = 0 := by decide

theorem sz53_and1 (v : Nat) : h_sz53 v &&& 1 = 0 :=
  sz53_and_vanish v 1 (by decide) (by decide)

-- ============================================================
-- INC/DEC engine lemmas
-- ============================================================

theorem incdec_reg_bounds (i : Nat) (hi : i < 7) :
    INCDEC_REG_H.getD i 0 < 8 ∧ INCDEC_REG_H.getD i 0 ≠ 1 := by
  interval_cases i <;> decide

theorem exec_inc_eq (s : Z80State) (i imm : Nat) (hi : i < 7) :
    h_exec_instruction s (120 + i) imm = h_alu_inc s (INCDEC_REG_H.getD i 0) := by
  interval_cases i <;> rfl

theorem exec_dec_eq (s : Z80State) (i imm : Nat) (hi : i < 7) :
    h_exec_instruction s (127 + i) imm = h_alu_dec s (INCDEC_REG_H.getD i 0) := by
  interval_cases i <;> rfl

theorem alu_inc_get (s : Z80State) (r : Nat) (hr : r < 8) (hne : r ≠ 1) :
    regGet (h_alu_inc s r) r = (regGet s r + 1) % 256 := by
  simp only [h_alu_inc]
  rw [regGet_regSet_ne _ 1 r _ (by norm_num) hr hne, regGet_regSet_self s r _ hr]

theorem alu_inc_frame (s : Z80State) (r j : Nat) (hr : r < 8) (hne : r ≠ 1) (hj : j < 8)
    (hjr : j ≠ r) (hj1 : j ≠ 1) : regGet (h_alu_inc s r) j = regGet s j := by
  simp only [h_alu_inc]
  rw [regGet_regSet_ne _ 1 j _ (by norm_num) hj hj1, regGet_regSet_ne _ r j _ hr hj hjr]

theorem alu_inc_sp (s : Z80State) (r : Nat) : (h_alu_inc s r).sp = s.sp := by
  simp only [h_alu_inc]
  rw [regSet_sp_eq, regSet_sp_eq]

theorem alu_inc_carry (s : Z80State) (r : Nat) (hr : r < 8) (hne : r ≠ 1) :
    (h_alu_inc s r).f &&& FLAG_C = s.f &&& FLAG_C := by
  simp only [h_alu_inc]
  rw [regSet_f_one, regSet_f_eq s r _ hr hne]
  simp only [FLAG_C, Nat.and_distrib_right, and11, bselV_and1, bselH0_and1, sz53_and1,
    Nat.zero_or, Nat.or_zero]

theorem alu_dec_get (s : Z80State) (r : Nat) (hr : r < 8) (hne : r ≠ 1) :
    regGet (h_alu_dec s r) r = (regGet s r + 255) % 256 := by
  simp only [h_alu_dec]
  rw [regGet_regSet_ne _ 1 r _ (by norm_num) hr hne, regGet_regSet_self _ r _ hr,
    regGet_regSet_ne _ 1 r _ (by norm_num) hr hne]

theorem alu_dec_frame (s : Z80State) (r j : Nat) (hr : r < 8) (hne : r ≠ 1) (hj : j < 8)
    (hjr : j ≠ r) (hj1 : j ≠ 1) : regGet (h_alu_dec s r) j = regGet s j := by
  simp only [h_alu_dec]
  rw [regGet_regSet_ne _ 1 j _ (by norm_num) hj hj1, regGet_regSet_ne _ r j _ hr hj hjr,
    regGet_regSet_ne _ 1 j _ (by norm_num) hj hj1]

theorem alu_dec_sp (s : Z80State) (r : Nat) : (h_alu_dec s r).sp = s.sp := by
  simp only [h_alu_dec]
  rw [regSet_sp_eq, regSet_sp_eq, regSet_sp_eq]

theorem alu_dec_carry (s : Z80State) (r : Nat) (hr : r < 8) (hne : r ≠ 1) :
    (h_alu_dec s r).f &&& FLAG_C = s.f &&& FLAG_C := by
  simp only [h_alu_dec]
  rw [regSet_f_one, regSet_f_eq _ r _ hr hne, regSet_f_one]
  simp only [FLAG_C, Nat.and_distrib_right, and11, bselH0_and1, flagN_and1, bselV_and1,
    sz53_and1, Nat.zero_or, Nat.or_zero]

set_option maxHeartbeats 1600000 in
/-- Claim C7: INC on a single register followed by DEC on the same register
restores the register, leaves every other register (besides F) and the
pair register unchanged, and the carry flag is preserved by each of the
two instructions and by the round trip. -/
theorem c7_inc_dec_roundtrip (s : Z80State) (hWF : WF s) (i : Nat) (hi : i < 7) :
    regGet (h_exec_instruction (h_exec_instruction s (120 + i) 0) (127 + i) 0)
        (INCDEC_REG_H.getD i 0) = regGet s (INCDEC_REG_H.getD i 0) ∧
    (∀ j, j < 8 → j ≠ INCDEC_REG_H.getD i 0 → j ≠ 1 →
      regGet (h_exec_instruction (h_exec_instruction s (120 + i) 0) (127 + i) 0) j =
        regGet s j) ∧
    (h_exec_instruction (h_exec_instruction s (120 + i) 0) (127 + i) 0).sp = s.sp ∧
    (h_exec_instruction s (120 + i) 0).f &&& FLAG_C = s.f &&& FLAG_C ∧
    (h_exec_instruction (h_exec_instruction s (120 + i) 0) (127 + i) 0).f &&& FLAG_C =
      (h_exec_instruction s (120 + i) 0).f &&& FLAG_C ∧
    (h_exec_instruction (h_exec_instruction s (120 + i) 0) (127 + i) 0).f &&& FLAG_C =
      s.f &&& FLAG_C := by
  obtain ⟨hreg8, hrne⟩ := incdec_reg_bounds i hi
  rw [exec_inc_eq s i 0 hi, exec_dec_eq _ i 0 hi]
  refine ⟨?_, ?_, ?_, ?_, ?_, ?_⟩
  · rw [alu_dec_get _ _ hreg8 hrne, alu_inc_get _ _ hreg8 hrne]
    have := regGet_lt_of_WF s hWF _ hreg8
    omega
  · intro j hj hjr hj1
    rw [alu_dec_frame _ _ _ hreg8 hrne hj hjr hj1, alu_inc_frame _ _ _ hreg8 hrne hj hjr hj1]
  · rw [alu_dec_sp, alu_inc_sp]
  · exact alu_inc_carry s _ hreg8 hrne
  · exact alu_dec_carry _ _ hreg8 hrne
  · rw [alu_dec_carry _ _ hreg8 hrne, alu_inc_carry s _ hreg8 hrne]

def vecFF : Z80State := Z80State.mk 0xFF 0xFF 0xFF 0xFF 0xFF 0xFF 0xFF 0xFF 0xFFFF

set_option maxHeartbeats 1600000 in
theorem c7_inc_dec_roundtrip_witness : WF vecFF ∧ 0 < 7 ∧
    (regGet (h_exec_instruction (h_exec_instruction vecFF (120 + 0) 0) (127 + 0) 0)
        (INCDEC_REG_H.getD 0 0) = regGet vecFF (INCDEC_REG_H.getD 0 0) ∧
    (∀ j, j < 8 → j ≠ INCDEC_REG_H.getD 0 0 → j ≠ 1 →
      regGet (h_exec_instruction (h_exec_instruction vecFF (120 + 0) 0) (127 + 0) 0) j =
        regGet vecFF j) ∧
    (h_exec_instruction (h_exec_instruction vecFF (120 + 0) 0) (127 + 0) 0).sp = vecFF.sp ∧
    (h_exec_instruction vecFF (120 + 0) 0).f &&& FLAG_C = vecFF.f &&& FLAG_C ∧
    (h_exec_instruction (h_exec_instruction vecFF (120 + 0) 0) (127 + 0) 0).f &&& FLAG_C =
      (h_exec_instruction vecFF (120 + 0) 0).f &&& FLAG_C ∧
    (h_exec_instruction (h_exec_instruction vecFF (120 + 0) 0) (127 + 0) 0).f &&& FLAG_C =
      vecFF.f &&& FLAG_C) :=
  ⟨by decide, by decide, c7_inc_dec_roundtrip vecFF (by decide) 0 (by decide)⟩

-- ============================================================
-- CP engine lemmas
-- ============================================================

theorem bselCZ_and40 (c c2 : Bool) : bsel_h c FLAG_C (bsel_h c2 0 FLAG_Z) &&& 40 = 0 := by
  cases c <;> cases c2 <;> decide

theorem flagN_and40 : (FLAG_N : Nat) &&& 40 = 0 := by decide

theorem flagN_and64 : (FLAG_N : Nat) &&& 64 = 0 := by decide

theorem flagN_and2 : (FLAG_N : Nat) &&& 2 = FLAG_N := by decide

theorem hcS_and40 (i : Nat) : h_halfcarry_sub.getD i 0 &&& 40 = 0 := by
  rcases i with _ | _ | _ | _ | _ | _ | _ | _ | i <;> first | rfl | simp [h_halfcarry_sub]

theorem ovS_and40 (i : Nat) : h_overflow_sub.getD i 0 &&& 40 = 0 := by
  rcases i with _ | _ | _ | _ | _ | _ | _ | _ | i <;> first | rfl | simp [h_overflow_sub]

theorem hcS_and64 (i : Nat) : h_halfcarry_sub.getD i 0 &&& 64 = 0 := by
  rcases i with _ | _ | _ | _ | _ | _ | _ | _ | i <;> first | rfl | simp [h_halfcarry_sub]

theorem ovS_and64 (i : Nat) : h_overflow_sub.getD i 0 &&& 64 = 0 := by
  rcases i with _ | _ | _ | _ | _ | _ | _ | _ | i <;> first | rfl | simp [h_overflow_sub]

theorem hcS_and1 (i : Nat) : h_halfcarry_sub.getD i 0 &&& 1 = 0 := by
  rcases i with _ | _ | _ | _ | _ | _ | _ | _ | i <;> first | rfl | simp [h_halfcarry_sub]

theorem ovS_and1 (i : Nat) : h_overflow_sub.getD i 0 &&& 1 = 0 := by
  rcases i with _ | _ | _ | _ | _ | _ | _ | _ | i <;> first | rfl | simp [h_overflow_sub]

theorem hcS_and2 (i : Nat) : h_halfcarry_sub.getD i 0 &&& 2 = 0 := by
  rcases i with _ | _ | _ | _ | _ | _ | _ | _ | i <;> first | rfl | simp [h_halfcarry_sub]

theorem ovS_and2 (i : Nat) : h_overflow_sub.getD i 0 &&& 2 = 0 := by
  rcases i with _ | _ | _ | _ | _ | _ | _ | _ | i <;> first | rfl | simp [h_overflow_sub]

theorem and40_40 (x : Nat) : (x &&& 40) &&& 40 = x &&& 40 := by
  rw [Nat.and_assoc, show ((40 : Nat) &&& 40) = 40 by decide]

theorem andS_and40 (x : Nat) : (x &&& FLAG_S) &&& 40 = 0 := by
  rw [Nat.and_assoc, show ((FLAG_S : Nat) &&& 40) = 0 by decide, Nat.and_zero]

theorem and35_and64 (x : Nat) : (x &&& (FLAG_3 ||| FLAG_5)) &&& 64 = 0 := by
  rw [Nat.and_assoc, show ((FLAG_3 ||| FLAG_5 : Nat) &&& 64) = 0 by decide, Nat.and_zero]

theorem and35_and1 (x : Nat) : (x &&& (FLAG_3 ||| FLAG_5)) &&& 1 = 0 := by
  rw [Nat.and_assoc, show ((FLAG_3 ||| FLAG_5 : Nat) &&& 1) = 0 by decide, Nat.and_zero]

theorem and35_and2 (x : Nat) : (x &&& (FLAG_3 ||| FLAG_5)) &&& 2 = 0 := by
  rw [Nat.and_assoc, show ((FLAG_3 ||| FLAG_5 : Nat) &&& 2) = 0 by decide, Nat.and_zero]

theorem bsel_zero_cz :
    bsel_h ((0 : Nat) &&& 0x100 != 0) FLAG_C (bsel_h ((0 : Nat) != 0) 0 FLAG_Z) = FLAG_Z := rfl

theorem lit64and64 : (64 : Nat) &&& 64 = 64 := by decide

theorem lit64and1 : (64 : Nat) &&& 1 = 0 := by decide

theorem lit64and2 : (64 : Nat) &&& 2 = 0 := by decide

theorem lit2and2 : (2 : Nat) &&& 2 = 2 := by decide

set_option maxHeartbeats 1600000 in
/-- Claim C6: CP leaves the accumulator, all registers other than F, and
the pair register unchanged; the resulting flag bits 3 and 5 are taken
from the operand; and when the operand equals the accumulator the zero
flag is set, the carry flag is clear, and the negate flag is set. -/
theorem c6_cp_flags (s : Z80State) (hWF : WF s) (v : Nat) (hv : v < 256) :
    (h_alu_cp s v).a = s.a ∧ (h_alu_cp s v).b = s.b ∧ (h_alu_cp s v).c = s.c ∧
    (h_alu_cp s v).d = s.d ∧ (h_alu_cp s v).e = s.e ∧ (h_alu_cp s v).hr = s.hr ∧
    (h_alu_cp s v).lr = s.lr ∧ (h_alu_cp s v).sp = s.sp ∧
    (h_alu_cp s v).f &&& (FLAG_3 ||| FLAG_5) = v &&& (FLAG_3 ||| FLAG_5) ∧
    (v = s.a →
      (h_alu_cp s v).f &&& FLAG_Z = FLAG_Z ∧
      (h_alu_cp s v).f &&& FLAG_C = 0 ∧
      (h_alu_cp s v).f &&& FLAG_N = FLAG_N) := by
  refine ⟨rfl, rfl, rfl, rfl, rfl, rfl, rfl, rfl, ?_, ?_⟩
  · simp only [h_alu_cp]
    rw [show (FLAG_3 ||| FLAG_5 : Nat) = 40 by decide]
    simp only [Nat.and_distrib_right, bselCZ_and40, flagN_and40, hcS_and40, ovS_and40,
      and40_40, andS_and40, Nat.zero_or, Nat.or_zero]
  · intro hva
    subst hva
    have hr0 : wrap16i ((s.a : Int) - (s.a : Int)) = 0 := by
      unfold wrap16i
      simp
    refine ⟨?_, ?_, ?_⟩
    · simp only [h_alu_cp, hr0, bsel_zero_cz]
      simp only [FLAG_Z, Nat.and_distrib_right, hcS_and64, ovS_and64, and35_and64,
        flagN_and64, lit64and64, Nat.zero_and, Nat.zero_or, Nat.or_zero]
    · simp only [h_alu_cp, hr0, bsel_zero_cz]
      simp only [FLAG_Z, FLAG_C, Nat.and_distrib_right, hcS_and1, ovS_and1, and35_and1,
        flagN_and1, lit64and1, Nat.zero_and, Nat.zero_or, Nat.or_zero]
    · simp only [h_alu_cp, hr0, bsel_zero_cz]
      simp only [FLAG_Z, FLAG_N, Nat.and_distrib_right, hcS_and2, ovS_and2, and35_and2,
        lit64and2, lit2and2, Nat.zero_and, Nat.zero_or, Nat.or_zero]

set_option maxHeartbeats 800000 in
theorem c6_cp_flags_witness : WF seed0 ∧ 0 < 256 ∧
    ((h_alu_cp seed0 0).a = seed0.a ∧ (h_alu_cp seed0 0).b = seed0.b ∧
    (h_alu_cp seed0 0).c = seed0.c ∧ (h_alu_cp seed0 0).d = seed0.d ∧
    (h_alu_cp seed0 0).e = seed0.e ∧ (h_alu_cp seed0 0).hr = seed0.hr ∧
    (h_alu_cp seed0 0).lr = seed0.lr ∧ (h_alu_cp seed0 0).sp = seed0.sp ∧
    (h_alu_cp seed0 0).f &&& (FLAG_3 ||| FLAG_5) = 0 &&& (FLAG_3 ||| FLAG_5) ∧
    (0 = seed0.a →
      (h_alu_cp seed0 0).f &&& FLAG_Z = FLAG_Z ∧
      (h_alu_cp seed0 0).f &&& FLAG_C = 0 ∧
      (h_alu_cp seed0 0).f &&& FLAG_N = FLAG_N)) :=
  ⟨by decide, by decide, c6_cp_flags seed0 (by decide) 0 (by decide)⟩

-- ============================================================
-- 16-bit pair lemmas
-- ============================================================

/-- Recombining the stored high and low bytes of a 16-bit value. -/
theorem recomb (y : Nat) (hy : y < 65536) : (((y >>> 8) % 256) <<< 8) ||| (y % 256) = y := by
  have hdiv : y >>> 8 = y / 256 := by
    rw [Nat.shiftRight_eq_div_pow]
  have hmod : y / 256 % 256 = y / 256 := Nat.mod_eq_of_lt (by omega)
  have hsl : (y / 256) <<< 8 = 256 * (y / 256) := by
    rw [Nat.shiftLeft_eq]
    ring
  have hlt : y % 256 < 2 ^ 8 := by
    exact Nat.mod_lt _ (by norm_num)
  have hor : 256 * (y / 256) + y % 256 = 256 * (y / 256) ||| y % 256 := by
    have h2 := Nat.mul_add_lt_is_or hlt (y / 256)
    norm_num at h2
    exact h2
  rw [hdiv, hmod, hsl, ← hor]
  omega

/-- The byte registers making up each register pair. -/
def pairRegs (p : Nat) : List Nat :=
  match p with
  | 0 => [2, 3]
  | 1 => [4, 5]
  | 2 => [6, 7]
  | _ => []

/-- Reduction of the dispatcher on the 16-bit pair inc/dec opcode range. -/
theorem exec_pair16_eq (s : Z80State) (op : Nat) (hlo : 368 ≤ op) (hhi : op < 376) :
    h_exec_instruction s op 0 =
      (if 4 ≤ op - 368 then
        h_set_pair s ((op - 368) % 4) (h_get_pair s ((op - 368) % 4) + 65535)
       else h_set_pair s ((op - 368) % 4) (h_get_pair s ((op - 368) % 4) + 1)) := by
  unfold h_exec_instruction OP_RLCA OP_RRCA OP_RLA OP_RRA OP_DAA OP_CPL OP_SCF OP_CCF
    OP_NEG OP_NOP OP_CB_START OP_SLL_A OP_SLL_B_START OP_BIT_START OP_RES_START
    OP_SET_START OP_16INC_START OP_ADD_HL_START OP_EX_DE_HL OP_LD_SP_HL
    OP_LD_RR_NN_START OP_ADC_HL_START OP_SBC_HL_START OP_COUNT
  rw [if_neg (show ¬ op < 49 by omega), if_neg (show ¬ op < 56 by omega),
    if_neg (show ¬ op < 120 by omega), if_neg (show ¬ op < 127 by omega),
    if_neg (show ¬ op < 134 by omega), if_neg (show ¬ op = 134 by omega),
    if_neg (show ¬ op = 135 by omega), if_neg (show ¬ op = 136 by omega),
    if_neg (show ¬ op = 137 by omega), if_neg (show ¬ op = 138 by omega),
    if_neg (show ¬ op = 139 by omega), if_neg (show ¬ op = 140 by omega),
    if_neg (show ¬ op = 141 by omega), if_neg (show ¬ op = 142 by omega),
    if_neg (show ¬ op = 143 by omega), if_neg (show ¬ (144 ≤ op ∧ op ≤ 192) by omega),
    if_neg (show ¬ op = 193 by omega), if_neg (show ¬ (194 ≤ op ∧ op < 200) by omega),
    if_neg (show ¬ (200 ≤ op ∧ op < 256) by omega),
    if_neg (show ¬ (256 ≤ op ∧ op < 312) by omega),
    if_neg (show ¬ (312 ≤ op ∧ op < 368) by omega),
    if_pos (show 368 ≤ op ∧ op < 376 by omega)]

/-- Writing a pair then reading it back yields the value modulo 65536. -/
theorem set_pair_get (s : Z80State) (p v : Nat) (hp : p < 4) :
    h_get_pair (h_set_pair s p v) p = v % 65536 := by
  interval_cases p
  · exact recomb _ (Nat.mod_lt _ (by norm_num))
  · exact recomb _ (Nat.mod_lt _ (by norm_num))
  · exact recomb _ (Nat.mod_lt _ (by norm_num))
  · rfl

/-- Writing a pair never changes the flags register F. -/
theorem set_pair_f (s : Z80State) (p v : Nat) : (h_set_pair s p v).f = s.f := by
  rcases p with _ | _ | _ | _ | p <;> rfl

/-- Writing a pair leaves every byte register outside the pair unchanged. -/
theorem set_pair_frame (s : Z80State) (p v j : Nat) (hj : j < 8)
    (hnotin : j ∉ pairRegs p) : regGet (h_set_pair s p v) j = regGet s j := by
  rcases p with _ | _ | _ | _ | p
  · interval_cases j <;> first | exact absurd (by decide) hnotin | rfl
  · interval_cases j <;> first | exact absurd (by decide) hnotin | rfl
  · interval_cases j <;> first | exact absurd (by decide) hnotin | rfl
  · interval_cases j <;> rfl
  · interval_cases j <;> rfl

/-- Writing a pair other than SP leaves sp unchanged. -/
theorem set_pair_sp (s : Z80State) (p v : Nat) (hp : p < 3) :
    (h_set_pair s p v).sp = s.sp := by
  interval_cases p <;> rfl

/-- Claim C8: the 16-bit pair increment computes (value + 1) mod 65536 and
the pair decrement computes (value - 1) mod 65536 (written value + 65535
mod 65536), and neither changes F or any register outside the targeted
pair. -/
theorem c8_pair_inc_dec (s : Z80State) (hWF : WF s) (idx : Nat) (hidx : idx < 8) :
    h_get_pair (h_exec_instruction s (368 + idx) 0) (idx % 4) =
      (if idx < 4 then (h_get_pair s (idx % 4) + 1) % 65536
       else (h_get_pair s (idx % 4) + 65535) % 65536) ∧
    (h_exec_instruction s (368 + idx) 0).f = s.f ∧
    (∀ j, j < 8 → j ∉ pairRegs (idx % 4) →
      regGet (h_exec_instruction s (368 + idx) 0) j = regGet s j) ∧
    (idx % 4 ≠ 3 → (h_exec_instruction s (368 + idx) 0).sp = s.sp) := by
  have e : h_exec_instruction s (368 + idx) 0 =
      (if 4 ≤ idx then h_set_pair s (idx % 4) (h_get_pair s (idx % 4) + 65535)
       else h_set_pair s (idx % 4) (h_get_pair s (idx % 4) + 1)) := by
    have e0 := exec_pair16_eq s (368 + idx) (by omega) (by omega)
    rw [show 368 + idx - 368 = idx by omega] at e0
    exact e0
  rw [e]
  by_cases h4 : 4 ≤ idx
  · rw [if_pos h4, if_neg (show ¬ idx < 4 by omega)]
    exact ⟨set_pair_get s (idx % 4) _ (Nat.mod_lt _ (by norm_num)),
      set_pair_f s (idx % 4) _,
      fun j hj hnotin => set_pair_frame s (idx % 4) _ j hj hnotin,
      fun hne3 => set_pair_sp s (idx % 4) _ (by omega)⟩
  · rw [if_neg h4, if_pos (show idx < 4 by omega)]
    exact ⟨set_pair_get s (idx % 4) _ (Nat.mod_lt _ (by norm_num)),
      set_pair_f s (idx % 4) _,
      fun j hj hnotin => set_pair_frame s (idx % 4) _ j hj hnotin,
      fun hne3 => set_pair_sp s (idx % 4) _ (by omega)⟩

set_option maxHeartbeats 1600000 in
theorem c8_pair_inc_dec_witness : WF vecFF ∧ 0 < 8 ∧
    (h_get_pair (h_exec_instruction vecFF (368 + 0) 0) (0 % 4) =
      (if 0 < 4 then (h_get_pair vecFF (0 % 4) + 1) % 65536
       else (h_get_pair vecFF (0 % 4) + 65535) % 65536) ∧
    (h_exec_instruction vecFF (368 + 0) 0).f = vecFF.f ∧
    (∀ j, j < 8 → j ∉ pairRegs (0 % 4) →
      regGet (h_exec_instruction vecFF (368 + 0) 0) j = regGet vecFF j) ∧
    (0 % 4 ≠ 3 → (h_exec_instruction vecFF (368 + 0) 0).sp = vecFF.sp)) :=
  ⟨by decide, by decide, c8_pair_inc_dec vecFF (by decide) 0 (by decide)⟩
